import Mathlib

/-!
Verification of the capability-routing resolver of the `component_manager`
(Fuchsia, 2019 era).  The router itself (`model/routing.rs`) is not part of
the source snapshot; only its test suite
(`src/sys/component_manager/src/model/tests/routing.rs`) is.  The data model
and the routing algorithm below are therefore modelled from the
natural-language specification (spec.md §3, §4.3–§4.5), with one point where
the in-tree tests constrain the behaviour more precisely than the spec text:
the executable check of §4.3 step 5 must apply only to `Self_`-sourced offers,
because the `use_kitchen_sink` test routes `Realm`- and `Child`-sourced offers
through realms declared with `program: None` and expects success.
-/

set_option linter.unusedVariables false

namespace ComponentManager

/-- Modelled from the spec: a capability kind, `Directory` or `Service`
(spec.md §3, `CapabilityPath`; in `cm_rust` the kind is carried by the
declaration variant, e.g. `UseDecl::Directory`). -/
inductive CapabilityKind where
  | Directory : CapabilityKind
  | Service : CapabilityKind
deriving DecidableEq, Repr

/-- Modelled from the spec: `UseDecl { kind, source_path, target_path }`
(spec.md §3).  Capability paths are the normalized path strings of
`cm_rust::CapabilityPath`; validity of the strings is orthogonal to routing. -/
structure UseDecl where
  kind : CapabilityKind
  source_path : String
  target_path : String
deriving DecidableEq, Repr

/-- Modelled from the spec: the source of an `OfferDecl`,
`Self_ | Realm | Child(name)` (spec.md §3). -/
inductive OfferSource where
  | Self_ : OfferSource
  | Realm : OfferSource
  | Child : String → OfferSource
deriving DecidableEq, Repr

/-- Modelled from the spec: the target of an `OfferDecl`,
`Child(name) | Collection(name)` (spec.md §3). -/
inductive OfferTarget where
  | Child : String → OfferTarget
  | Collection : String → OfferTarget
deriving DecidableEq, Repr

/-- Modelled from the spec: `OfferDecl { kind, source, source_path,
target_path, target }` (spec.md §3). -/
structure OfferDecl where
  kind : CapabilityKind
  source : OfferSource
  source_path : String
  target_path : String
  target : OfferTarget
deriving DecidableEq, Repr

/-- Modelled from the spec: the source of an `ExposeDecl`,
`Self_ | Child(name)` — an expose has no `Realm` source (spec.md §3, §4.3
step 7). -/
inductive ExposeSource where
  | Self_ : ExposeSource
  | Child : String → ExposeSource
deriving DecidableEq, Repr

/-- Modelled from the spec: `ExposeDecl { kind, source, source_path,
target_path }` (spec.md §3). -/
structure ExposeDecl where
  kind : CapabilityKind
  source : ExposeSource
  source_path : String
  target_path : String
deriving DecidableEq, Repr

/-- Modelled from the spec: a child's startup mode (`fsys::StartupMode`). -/
inductive StartupMode where
  | Lazy : StartupMode
  | Eager : StartupMode
deriving DecidableEq, Repr

/-- Modelled from the spec: `ChildDecl { name, url, startup }` (spec.md §3). -/
structure ChildDecl where
  name : String
  url : String
  startup : StartupMode
deriving DecidableEq, Repr

/-- Modelled from the spec: a collection's durability (`fsys::Durability`). -/
inductive Durability where
  | Persistent : Durability
  | Transient : Durability
deriving DecidableEq, Repr

/-- Modelled from the spec: `CollectionDecl { name, durability }`
(spec.md §3). -/
structure CollectionDecl where
  name : String
  durability : Durability
deriving DecidableEq, Repr

/-- Modelled from the spec: `ComponentDecl` with its `uses`, `offers`,
`exposes`, `children`, `collections` and the optional executable marker
(spec.md §3).  `program = true` models `program: Some(_)` in the tests and
`program = false` models `program: None`. -/
structure ComponentDecl where
  program : Bool
  uses : List UseDecl
  offers : List OfferDecl
  exposes : List ExposeDecl
  children : List ChildDecl
  collections : List CollectionDecl
deriving DecidableEq, Repr

/-- Modelled from the spec: `default_component_decl()` of the test helpers —
an executable component with no declarations (tests that want a
non-executable realm override `program` with `None` explicitly; the tests
`use_kitchen_sink` and `offer_from_non_executable` rely on the default decl
being executable). -/
def default_component_decl : ComponentDecl :=
  { program := true, uses := [], offers := [], exposes := [], children := [],
    collections := [] }

/-- Modelled from the spec: one segment of a `Moniker` — either a static
child name or `collection:instance` for a dynamically created child
(spec.md §3). -/
inductive MonikerSegment where
  | child : String → MonikerSegment
  | collectionChild : String → String → MonikerSegment
deriving DecidableEq, Repr

/-- Modelled from the spec: a `Moniker` is the ordered sequence of segments
from the root to an instance (spec.md §3).  The root realm has the empty
moniker. -/
abbrev Moniker := List MonikerSegment

/-- Modelled from the spec: the realm tree, "keyed by Moniker" (spec.md §3,
`Realm`), as the finite map from each realm's moniker to its resolved
`ComponentDecl`.  Dynamically created children appear under
`collection:instance` segments. -/
structure RealmTree where
  realms : List (Moniker × ComponentDecl)
deriving DecidableEq, Repr

/-- Modelled from the spec: `resolve(moniker) -> Realm` (spec.md §4.2) —
look the moniker up in the tree, `none` when no realm has it. -/
def RealmTree.resolve (t : RealmTree) (m : Moniker) : Option ComponentDecl :=
  (t.realms.find? (fun p => decide (p.1 = m))).map (fun p => p.2)

/-- Modelled from the spec: the routing error taxonomy (spec.md §7). -/
inductive RoutingError where
  | InvalidPath : RoutingError
  | NotUsed : RoutingError
  | NotOffered : RoutingError
  | OfferFromNonExecutable : RoutingError
  | InstanceNotFound : RoutingError
  | ExposeSourceNotFound : RoutingError
  | CollectionNotFound : RoutingError
  | DuplicateChild : RoutingError
deriving DecidableEq, Repr

/-- Modelled from the spec: the resolved provider of a capability — a
component realm opened at a source path, the component manager's own
namespace (§4.5), or the ambient environment bound for a requesting realm
(§4.3 step 2). -/
inductive CapabilitySource where
  | component : Moniker → String → CapabilitySource
  | componentMgrNamespace : String → CapabilitySource
  | ambient : Moniker → CapabilitySource
deriving DecidableEq, Repr

/-- Modelled from the spec: the fixed bootstrap service path of the ambient
special case (spec.md §4.3 step 2; `/svc/fuchsia.sys2.Realm` in the tests). -/
def ambientServicePath : String := "/svc/fuchsia.sys2.Realm"

/-- Modelled from the spec: the component manager's own fixed external
namespace (§4.5), a set of `(kind, path)` entries supplied by the hosting
process. -/
abbrev CMNamespace := List (CapabilityKind × String)

/-- Modelled from the spec: step 1 of §4.3 — find the `UseDecl` in a decl
matching `(kind, target_path)`; first match wins (§4.3 step 8). -/
def findUse (decl : ComponentDecl) (kind : CapabilityKind)
    (targetPath : String) : Option UseDecl :=
  decl.uses.find? (fun u =>
    decide (u.kind = kind) && decide (u.target_path = targetPath))

/-- Modelled from the spec: whether an offer's `target` names the requesting
child's moniker segment — a `Child(n)` target matches the static child
segment `n`, a `Collection(c)` target matches any `collection:instance`
segment of collection `c` (spec.md §4.3 step 4, §3 invariants). -/
def offerTargetMatches : OfferTarget → MonikerSegment → Bool
  | OfferTarget.Child n, MonikerSegment.child m => decide (n = m)
  | OfferTarget.Collection c, MonikerSegment.collectionChild c2 _ =>
      decide (c = c2)
  | _, _ => false

/-- Modelled from the spec: step 4 of §4.3 — find the `OfferDecl` in the
parent's decl of matching kind whose `target_path` equals `wanted` and whose
`target` names the requesting child's segment; first match wins. -/
def findOffer (decl : ComponentDecl) (kind : CapabilityKind) (wanted : String)
    (seg : MonikerSegment) : Option OfferDecl :=
  decl.offers.find? (fun o =>
    decide (o.kind = kind) && decide (o.target_path = wanted) &&
      offerTargetMatches o.target seg)

/-- Modelled from the spec: the expose lookup of §4.3 step 6 — find the
`ExposeDecl` of matching kind whose `target_path` equals `wanted`; first
match wins. -/
def findExpose (decl : ComponentDecl) (kind : CapabilityKind)
    (wanted : String) : Option ExposeDecl :=
  decl.exposes.find? (fun e =>
    decide (e.kind = kind) && decide (e.target_path = wanted))

/-- Modelled from the spec: the downward expose-chase of §4.3 step 6.  At
realm `m`, find the expose matching `(kind, wanted)`; on `Self_` the provider
is `m` at the expose's `source_path`; on `Child(grandchild)` rebind `wanted`
to the expose's `source_path` and descend.  A missing realm fails with
`InstanceNotFound`, a break in the chain with `ExposeSourceNotFound`.
The `fuel` argument only bounds the descent depth for termination; callers
pass `t.realms.length + 1`, which the chase can never exhaust because every
step descends to a strictly longer moniker that must be present in the finite
realm map. -/
def chaseExposes (t : RealmTree) (kind : CapabilityKind) :
    Nat → Moniker → String → Except RoutingError CapabilitySource
  | 0, _, _ => Except.error RoutingError.InstanceNotFound
  | Nat.succ fuel, m, wanted =>
    match t.resolve m with
    | none => Except.error RoutingError.InstanceNotFound
    | some decl =>
      match findExpose decl kind wanted with
      | none => Except.error RoutingError.ExposeSourceNotFound
      | some e =>
        match e.source with
        | ExposeSource.Self_ =>
            Except.ok (CapabilitySource.component m e.source_path)
        | ExposeSource.Child n =>
            chaseExposes t kind fuel (m ++ [MonikerSegment.child n])
              e.source_path

/-- Modelled from the spec: the upward walk of §4.3 steps 3–6.  The holder's
moniker is passed reversed (innermost segment first) so that moving to the
parent is structural.  At the root, resolve against the component-manager
namespace instead (§4.5), failing with `NotOffered` when it has no match.
Otherwise find the matching offer at the parent (`NotOffered` when absent)
and branch on its source: `Self_` succeeds at the parent (which must be
executable, else `OfferFromNonExecutable`); `Realm` rebinds `wanted` and
recurses one level up; `Child(n)` descends into the child and chases exposes
with `wanted` rebound to the offer's `source_path`.  Per the in-tree
`use_kitchen_sink` test, the executable check of step 5 applies only on the
`Self_` branch. -/
def walkOffers (t : RealmTree) (ns : CMNamespace) (kind : CapabilityKind) :
    List MonikerSegment → String → Except RoutingError CapabilitySource
  | [], wanted =>
    if (kind, wanted) ∈ ns then
      Except.ok (CapabilitySource.componentMgrNamespace wanted)
    else Except.error RoutingError.NotOffered
  | seg :: revParent, wanted =>
    match t.resolve revParent.reverse with
    | none => Except.error RoutingError.InstanceNotFound
    | some pdecl =>
      match findOffer pdecl kind wanted seg with
      | none => Except.error RoutingError.NotOffered
      | some o =>
        match o.source with
        | OfferSource.Self_ =>
            if pdecl.program then
              Except.ok
                (CapabilitySource.component revParent.reverse o.source_path)
            else Except.error RoutingError.OfferFromNonExecutable
        | OfferSource.Realm => walkOffers t ns kind revParent o.source_path
        | OfferSource.Child n =>
            chaseExposes t kind (t.realms.length + 1)
              (revParent.reverse ++ [MonikerSegment.child n]) o.source_path

/-- Modelled from the spec: the route request entry point (§4.3, §6).
Resolve the requester, find its matching `UseDecl` (`NotUsed` when absent);
if its `source_path` is the fixed bootstrap service path, bind the ambient
environment for the requesting realm (§4.3 step 2); otherwise run the upward
walk from the requester with `wanted` bound to the use's `source_path`. -/
def route (t : RealmTree) (ns : CMNamespace) (m : Moniker)
    (kind : CapabilityKind) (targetPath : String) :
    Except RoutingError CapabilitySource :=
  match t.resolve m with
  | none => Except.error RoutingError.InstanceNotFound
  | some decl =>
    match findUse decl kind targetPath with
    | none => Except.error RoutingError.NotUsed
    | some u =>
      if u.source_path = ambientServicePath then
        Except.ok (CapabilitySource.ambient m)
      else walkOffers t ns kind m.reverse u.source_path

/-- Modelled from the spec: the exposed-capability query entry point (§4.4,
§6) — given a moniker and `(kind, target_path)`, run only the expose-chase
sub-algorithm of §4.3 step 6, starting at that component. -/
def routeExpose (t : RealmTree) (m : Moniker) (kind : CapabilityKind)
    (targetPath : String) : Except RoutingError CapabilitySource :=
  chaseExposes t kind (t.realms.length + 1) m targetPath

/-- Modelled from the spec: `create_dynamic_child(parent_moniker,
collection_name, child_decl)` (§4.2), with the new child's resolved decl
supplied by the caller (spec.md §3 invariants: dynamic children are created
against a `CollectionDecl` plus a caller-supplied decl).  Fails with
`CollectionNotFound` when the collection is undeclared and `DuplicateChild`
when the name is taken within that collection. -/
def createDynamicChild (t : RealmTree) (parent : Moniker)
    (collection : String) (childName : String) (childDecl : ComponentDecl) :
    Except RoutingError RealmTree :=
  match t.resolve parent with
  | none => Except.error RoutingError.InstanceNotFound
  | some pdecl =>
    if pdecl.collections.any (fun c => decide (c.name = collection)) then
      let m := parent ++ [MonikerSegment.collectionChild collection childName]
      match t.resolve m with
      | some _ => Except.error RoutingError.DuplicateChild
      | none => Except.ok ⟨t.realms ++ [(m, childDecl)]⟩
    else Except.error RoutingError.CollectionNotFound

/-! ### Concrete realm trees, transcribed from the tests in
`src/sys/component_manager/src/model/tests/routing.rs`. -/

/-- The empty component-manager namespace used by tests that do not install
one. -/
def emptyNs : CMNamespace := []

/-- A lazy static child declaration named `n` with the test URL scheme. -/
def lazyChild (n : String) : ChildDecl :=
  { name := n, url := "test:///" ++ n, startup := StartupMode.Lazy }

/-- The tree of test `use_ambient`: root `a` with child `b`; `b` uses the
ambient service `/svc/fuchsia.sys2.Realm`. -/
def use_ambient_tree : RealmTree :=
  ⟨[([], { default_component_decl with children := [lazyChild "b"] }),
    ([MonikerSegment.child "b"],
      { default_component_decl with
        uses := [{ kind := CapabilityKind.Service,
                   source_path := "/svc/fuchsia.sys2.Realm",
                   target_path := "/svc/fuchsia.sys2.Realm" }] })]⟩

/-- The tree of test `use_from_parent`: `a` offers directory `/data/foo` from
self as `/data/bar` and service `/svc/foo` from self as `/svc/bar` to child
`b`; `b` uses them as `/data/hippo` and `/svc/hippo`. -/
def use_from_parent_tree : RealmTree :=
  ⟨[([], { default_component_decl with
        offers :=
          [{ kind := CapabilityKind.Directory, source := OfferSource.Self_,
             source_path := "/data/foo", target_path := "/data/bar",
             target := OfferTarget.Child "b" },
           { kind := CapabilityKind.Service, source := OfferSource.Self_,
             source_path := "/svc/foo", target_path := "/svc/bar",
             target := OfferTarget.Child "b" }],
        children := [lazyChild "b"] }),
    ([MonikerSegment.child "b"],
      { default_component_decl with
        uses :=
          [{ kind := CapabilityKind.Directory, source_path := "/data/bar",
             target_path := "/data/hippo" },
           { kind := CapabilityKind.Service, source_path := "/svc/bar",
             target_path := "/svc/hippo" }] })]⟩

/-- The tree of test `use_from_expose`: `b` uses `/data/hippo` and
`/svc/hippo`, which its child `c` merely exposes; nothing offers them to
`b`. -/
def use_from_expose_tree : RealmTree :=
  ⟨[([], { default_component_decl with
        program := false,
        children := [lazyChild "b"] }),
    ([MonikerSegment.child "b"],
      { default_component_decl with
        uses :=
          [{ kind := CapabilityKind.Directory, source_path := "/data/hippo",
             target_path := "/data/hippo" },
           { kind := CapabilityKind.Service, source_path := "/svc/hippo",
             target_path := "/svc/hippo" }],
        children := [lazyChild "c"] }),
    ([MonikerSegment.child "b", MonikerSegment.child "c"],
      { default_component_decl with
        exposes :=
          [{ kind := CapabilityKind.Directory, source := ExposeSource.Self_,
             source_path := "/data/hippo", target_path := "/data/hippo" },
           { kind := CapabilityKind.Service, source := ExposeSource.Self_,
             source_path := "/svc/hippo", target_path := "/svc/hippo" }] })]⟩

/-- The tree of test `use_from_component_manager_namespace`: root `a` offers
`Realm`-sourced `/hippo/data/foo` as `/foo` and `/svc/fidl.examples.echo.Echo`
as `/echo/echo` to `b`; `b` uses them. -/
def use_from_cm_namespace_tree : RealmTree :=
  ⟨[([], { default_component_decl with
        offers :=
          [{ kind := CapabilityKind.Directory, source := OfferSource.Realm,
             source_path := "/hippo/data/foo", target_path := "/foo",
             target := OfferTarget.Child "b" },
           { kind := CapabilityKind.Service, source := OfferSource.Realm,
             source_path := "/svc/fidl.examples.echo.Echo",
             target_path := "/echo/echo",
             target := OfferTarget.Child "b" }],
        children := [lazyChild "b"] }),
    ([MonikerSegment.child "b"],
      { default_component_decl with
        uses :=
          [{ kind := CapabilityKind.Directory, source_path := "/foo",
             target_path := "/data/hippo" },
           { kind := CapabilityKind.Service, source_path := "/echo/echo",
             target_path := "/svc/hippo" }] })]⟩

/-- The component-manager namespace installed by
`use_from_component_manager_namespace` (`install_hippo_dir`), with the echo
service entry that the same fallback serves for `Service` capabilities. -/
def hippo_namespace : CMNamespace :=
  [(CapabilityKind.Directory, "/hippo/data/foo"),
   (CapabilityKind.Service, "/svc/fidl.examples.echo.Echo")]

/-- The tree of test `use_offer_source_not_offered`: `b` (not executable)
offers `Realm`-sourced `/data/hippo` and `/svc/hippo` to `c`, but root `a`
never offered them to `b`. -/
def use_offer_source_not_offered_tree : RealmTree :=
  ⟨[([], { default_component_decl with children := [lazyChild "b"] }),
    ([MonikerSegment.child "b"],
      { default_component_decl with
        program := false,
        offers :=
          [{ kind := CapabilityKind.Directory, source := OfferSource.Realm,
             source_path := "/data/hippo", target_path := "/data/hippo",
             target := OfferTarget.Child "c" },
           { kind := CapabilityKind.Service, source := OfferSource.Realm,
             source_path := "/svc/hippo", target_path := "/svc/hippo",
             target := OfferTarget.Child "c" }],
        children := [lazyChild "c"] }),
    ([MonikerSegment.child "b", MonikerSegment.child "c"],
      { default_component_decl with
        uses :=
          [{ kind := CapabilityKind.Directory, source_path := "/data/hippo",
             target_path := "/data/hippo" },
           { kind := CapabilityKind.Service, source_path := "/svc/hippo",
             target_path := "/svc/hippo" }] })]⟩

/-- The tree of test `use_offer_source_not_exposed`: root `a` (not
executable) offers `/data/hippo` and `/svc/hippo` from child `b` to `c`, but
`b` exposes nothing; `c` uses them. -/
def use_offer_source_not_exposed_tree : RealmTree :=
  ⟨[([], { default_component_decl with
        program := false,
        offers :=
          [{ kind := CapabilityKind.Directory,
             source := OfferSource.Child "b",
             source_path := "/data/hippo", target_path := "/data/hippo",
             target := OfferTarget.Child "c" },
           { kind := CapabilityKind.Service,
             source := OfferSource.Child "b",
             source_path := "/svc/hippo", target_path := "/svc/hippo",
             target := OfferTarget.Child "c" }],
        children := [lazyChild "b", lazyChild "c"] }),
    ([MonikerSegment.child "b"], default_component_decl),
    ([MonikerSegment.child "c"],
      { default_component_decl with
        uses :=
          [{ kind := CapabilityKind.Directory, source_path := "/data/hippo",
             target_path := "/data/hippo" },
           { kind := CapabilityKind.Service, source_path := "/svc/hippo",
             target_path := "/svc/hippo" }] })]⟩

/-- The tree of test `offer_from_non_executable`: root `a` has no `program`
but offers `/data/hippo` and `/svc/hippo` from self to `b`; `b` uses them. -/
def offer_from_non_executable_tree : RealmTree :=
  ⟨[([], { default_component_decl with
        program := false,
        offers :=
          [{ kind := CapabilityKind.Directory, source := OfferSource.Self_,
             source_path := "/data/hippo", target_path := "/data/hippo",
             target := OfferTarget.Child "b" },
           { kind := CapabilityKind.Service, source := OfferSource.Self_,
             source_path := "/svc/hippo", target_path := "/svc/hippo",
             target := OfferTarget.Child "b" }],
        children := [lazyChild "b"] }),
    ([MonikerSegment.child "b"],
      { default_component_decl with
        uses :=
          [{ kind := CapabilityKind.Directory, source_path := "/data/hippo",
             target_path := "/data/hippo" },
           { kind := CapabilityKind.Service, source_path := "/svc/hippo",
             target_path := "/svc/hippo" }] })]⟩

/-- The tree of test `use_kitchen_sink`.  `a`, `d`, `h` host capabilities;
`b`, `c`, `g` are not executable and only forward them through `Realm`- and
`Child`-sourced offers and exposes; `e` and `f` consume them. -/
def use_kitchen_sink_tree : RealmTree :=
  ⟨[([], { default_component_decl with
        offers :=
          [{ kind := CapabilityKind.Service, source := OfferSource.Self_,
             source_path := "/svc/foo", target_path := "/svc/foo_from_a",
             target := OfferTarget.Child "b" },
           { kind := CapabilityKind.Directory,
             source := OfferSource.Child "b",
             source_path := "/data/foo_from_d",
             target_path := "/data/foo_from_d",
             target := OfferTarget.Child "c" }],
        children := [lazyChild "b", lazyChild "c"] }),
    ([MonikerSegment.child "b"],
      { default_component_decl with
        program := false,
        offers :=
          [{ kind := CapabilityKind.Directory,
             source := OfferSource.Child "d",
             source_path := "/data/foo_from_d",
             target_path := "/data/foo_from_d",
             target := OfferTarget.Child "e" },
           { kind := CapabilityKind.Service, source := OfferSource.Realm,
             source_path := "/svc/foo_from_a",
             target_path := "/svc/foo_from_a",
             target := OfferTarget.Child "e" }],
        exposes :=
          [{ kind := CapabilityKind.Directory,
             source := ExposeSource.Child "d",
             source_path := "/data/foo_from_d",
             target_path := "/data/foo_from_d" }],
        children := [lazyChild "d", lazyChild "e"] }),
    ([MonikerSegment.child "c"],
      { default_component_decl with
        program := false,
        offers :=
          [{ kind := CapabilityKind.Directory, source := OfferSource.Realm,
             source_path := "/data/foo_from_d",
             target_path := "/data/foo_from_d",
             target := OfferTarget.Child "f" },
           { kind := CapabilityKind.Service,
             source := OfferSource.Child "g",
             source_path := "/svc/foo_from_h",
             target_path := "/svc/foo_from_h",
             target := OfferTarget.Child "f" }],
        children := [lazyChild "f", lazyChild "g"] }),
    ([MonikerSegment.child "b", MonikerSegment.child "d"],
      { default_component_decl with
        exposes :=
          [{ kind := CapabilityKind.Directory, source := ExposeSource.Self_,
             source_path := "/data/foo",
             target_path := "/data/foo_from_d" }] }),
    ([MonikerSegment.child "b", MonikerSegment.child "e"],
      { default_component_decl with
        uses :=
          [{ kind := CapabilityKind.Directory,
             source_path := "/data/foo_from_d",
             target_path := "/data/hippo" },
           { kind := CapabilityKind.Service,
             source_path := "/svc/foo_from_a",
             target_path := "/svc/hippo" }] }),
    ([MonikerSegment.child "c", MonikerSegment.child "f"],
      { default_component_decl with
        uses :=
          [{ kind := CapabilityKind.Directory,
             source_path := "/data/foo_from_d",
             target_path := "/data/hippo" },
           { kind := CapabilityKind.Service,
             source_path := "/svc/foo_from_h",
             target_path := "/svc/hippo" }] }),
    ([MonikerSegment.child "c", MonikerSegment.child "g"],
      { default_component_decl with
        program := false,
        exposes :=
          [{ kind := CapabilityKind.Service,
             source := ExposeSource.Child "h",
             source_path := "/svc/foo_from_h",
             target_path := "/svc/foo_from_h" }],
        children := [lazyChild "h"] }),
    ([MonikerSegment.child "c", MonikerSegment.child "g",
      MonikerSegment.child "h"],
      { default_component_decl with
        exposes :=
          [{ kind := CapabilityKind.Service, source := ExposeSource.Self_,
             source_path := "/svc/foo",
             target_path := "/svc/foo_from_h" }] })]⟩

/-- The static part of the tree of test `use_in_collection`: `a` offers
`/data/foo` as `/data/hippo` and `/svc/foo` as `/svc/hippo` from self to
`b`; `b` forwards both from its realm to collection `coll`. -/
def use_in_collection_base_tree : RealmTree :=
  ⟨[([], { default_component_decl with
        offers :=
          [{ kind := CapabilityKind.Directory, source := OfferSource.Self_,
             source_path := "/data/foo", target_path := "/data/hippo",
             target := OfferTarget.Child "b" },
           { kind := CapabilityKind.Service, source := OfferSource.Self_,
             source_path := "/svc/foo", target_path := "/svc/hippo",
             target := OfferTarget.Child "b" }],
        children := [lazyChild "b"] }),
    ([MonikerSegment.child "b"],
      { default_component_decl with
        uses :=
          [{ kind := CapabilityKind.Service,
             source_path := "/svc/fuchsia.sys2.Realm",
             target_path := "/svc/fuchsia.sys2.Realm" }],
        offers :=
          [{ kind := CapabilityKind.Directory, source := OfferSource.Realm,
             source_path := "/data/hippo", target_path := "/data/hippo",
             target := OfferTarget.Collection "coll" },
           { kind := CapabilityKind.Service, source := OfferSource.Realm,
             source_path := "/svc/hippo", target_path := "/svc/hippo",
             target := OfferTarget.Collection "coll" }],
        collections := [{ name := "coll",
                          durability := Durability.Transient }] })]⟩

/-- The decl of dynamic child `c` of `use_in_collection`: uses directory
`/data/hippo`. -/
def coll_c_decl : ComponentDecl :=
  { default_component_decl with
    uses := [{ kind := CapabilityKind.Directory,
               source_path := "/data/hippo",
               target_path := "/data/hippo" }] }

/-- The decl of dynamic child `d` of `use_in_collection`: uses service
`/svc/hippo`. -/
def coll_d_decl : ComponentDecl :=
  { default_component_decl with
    uses := [{ kind := CapabilityKind.Service,
               source_path := "/svc/hippo",
               target_path := "/svc/hippo" }] }

/-- The tree of test `use_in_collection` after both dynamic children have
been created in collection `coll` of `b`. -/
def use_in_collection_full_tree : RealmTree :=
  ⟨use_in_collection_base_tree.realms ++
    [([MonikerSegment.child "b",
       MonikerSegment.collectionChild "coll" "c"], coll_c_decl),
     ([MonikerSegment.child "b",
       MonikerSegment.collectionChild "coll" "d"], coll_d_decl)]⟩

/-- The static part of the tree of test `use_in_collection_not_offered`:
as in `use_in_collection`, but `b` declares collection `coll` without
offering anything to it. -/
def use_in_coll_not_offered_base_tree : RealmTree :=
  ⟨[([], { default_component_decl with
        offers :=
          [{ kind := CapabilityKind.Directory, source := OfferSource.Self_,
             source_path := "/data/foo", target_path := "/data/hippo",
             target := OfferTarget.Child "b" },
           { kind := CapabilityKind.Service, source := OfferSource.Self_,
             source_path := "/svc/foo", target_path := "/svc/hippo",
             target := OfferTarget.Child "b" }],
        children := [lazyChild "b"] }),
    ([MonikerSegment.child "b"],
      { default_component_decl with
        uses :=
          [{ kind := CapabilityKind.Service,
             source_path := "/svc/fuchsia.sys2.Realm",
             target_path := "/svc/fuchsia.sys2.Realm" }],
        collections := [{ name := "coll",
                          durability := Durability.Transient }] })]⟩

/-- The decl of dynamic child `c` of `use_in_collection_not_offered`: uses
both `/data/hippo` and `/svc/hippo`. -/
def coll_no_c_decl : ComponentDecl :=
  { default_component_decl with
    uses :=
      [{ kind := CapabilityKind.Directory, source_path := "/data/hippo",
         target_path := "/data/hippo" },
       { kind := CapabilityKind.Service, source_path := "/svc/hippo",
         target_path := "/svc/hippo" }] }

/-- The tree of test `use_in_collection_not_offered` after dynamic child `c`
has been created. -/
def use_in_coll_not_offered_full_tree : RealmTree :=
  ⟨use_in_coll_not_offered_base_tree.realms ++
    [([MonikerSegment.child "b",
       MonikerSegment.collectionChild "coll" "c"], coll_no_c_decl)]⟩

/-- The tree of test `expose_from_self_and_child`: `b` exposes `Child(c)`-
sourced `/data/hippo` as `/data/bar/hippo` and `/svc/hippo` as
`/svc/bar/hippo`; `c` exposes self-sourced `/data/foo` as `/data/hippo` and
`/svc/foo` as `/svc/hippo`. -/
def expose_from_self_and_child_tree : RealmTree :=
  ⟨[([], { default_component_decl with children := [lazyChild "b"] }),
    ([MonikerSegment.child "b"],
      { default_component_decl with
        exposes :=
          [{ kind := CapabilityKind.Directory,
             source := ExposeSource.Child "c",
             source_path := "/data/hippo",
             target_path := "/data/bar/hippo" },
           { kind := CapabilityKind.Service,
             source := ExposeSource.Child "c",
             source_path := "/svc/hippo",
             target_path := "/svc/bar/hippo" }],
        children := [lazyChild "c"] }),
    ([MonikerSegment.child "b", MonikerSegment.child "c"],
      { default_component_decl with
        exposes :=
          [{ kind := CapabilityKind.Directory, source := ExposeSource.Self_,
             source_path := "/data/foo", target_path := "/data/hippo" },
           { kind := CapabilityKind.Service, source := ExposeSource.Self_,
             source_path := "/svc/foo", target_path := "/svc/hippo" }] })]⟩

/-! ### Auxiliary definitions used by the statements below. -/

/-- A chain of offers as described by spec.md §8: at each hop below the
originator the parent passes the capability through with a `Realm`-sourced
offer targeting the holder's segment, and at the originating realm a
`Self_`-sourced offer (from an executable component, §4.3 step 5) matches.
The indices are: the holder's reversed moniker, the wanted path at the
holder, the originating realm and its declared source path. -/
inductive OfferChain (t : RealmTree) (kind : CapabilityKind) :
    List MonikerSegment → String → Moniker → String → Prop where
  | self (revParent : List MonikerSegment) (seg : MonikerSegment)
      (wanted : String) (pdecl : ComponentDecl) (o : OfferDecl) :
      t.resolve revParent.reverse = some pdecl →
      findOffer pdecl kind wanted seg = some o →
      o.source = OfferSource.Self_ →
      pdecl.program = true →
      OfferChain t kind (seg :: revParent) wanted revParent.reverse
        o.source_path
  | realm (revParent : List MonikerSegment) (seg : MonikerSegment)
      (wanted : String) (pdecl : ComponentDecl) (o : OfferDecl)
      (origin : Moniker) (sp : String) :
      t.resolve revParent.reverse = some pdecl →
      findOffer pdecl kind wanted seg = some o →
      o.source = OfferSource.Realm →
      OfferChain t kind revParent o.source_path origin sp →
      OfferChain t kind (seg :: revParent) wanted origin sp

/-- A component decl with its `uses` and `offers` removed; what remains is
exactly what the exposed-capability query of §4.4 may consult. -/
def ComponentDecl.eraseRouting (d : ComponentDecl) : ComponentDecl :=
  { d with uses := [], offers := [] }

/-- A realm tree with every component's `uses` and `offers` removed. -/
def RealmTree.eraseRouting (t : RealmTree) : RealmTree :=
  ⟨t.realms.map (fun p => (p.1, p.2.eraseRouting))⟩

/-! ## Helper lemmas -/

/-- The downward expose-chase never produces the ambient environment: its
successes are component providers only. -/
theorem chaseExposes_ne_ambient (t : RealmTree) (kind : CapabilityKind) :
    ∀ (fuel : Nat) (m : Moniker) (w : String) (r : Moniker),
      chaseExposes t kind fuel m w ≠
        Except.ok (CapabilitySource.ambient r) := by
  intro fuel
  induction fuel with
  | zero => intro m w r h; simp [chaseExposes] at h
  | succ fuel ih =>
    intro m w r h
    simp only [chaseExposes] at h
    split at h
    · simp at h
    · split at h
      · simp at h
      · split at h
        · simp at h
        · exact ih _ _ _ h

/-- The upward offer walk never produces the ambient environment: its
successes are component providers or the component-manager namespace. -/
theorem walkOffers_ne_ambient (t : RealmTree) (ns : CMNamespace)
    (kind : CapabilityKind) :
    ∀ (rev : List MonikerSegment) (w : String) (r : Moniker),
      walkOffers t ns kind rev w ≠
        Except.ok (CapabilitySource.ambient r) := by
  intro rev
  induction rev with
  | nil =>
    intro w r h
    simp only [walkOffers] at h
    split at h <;> simp at h
  | cons seg revParent ih =>
    intro w r h
    simp only [walkOffers] at h
    split at h
    · simp at h
    · split at h
      · simp at h
      · split at h
        · split at h <;> simp at h
        · exact ih _ _ h
        · exact chaseExposes_ne_ambient t kind _ _ _ _ h

/-- A successful offer chain makes the upward walk succeed with the
originating realm as provider, opened at its declared source path. -/
theorem walkOffers_of_offerChain (t : RealmTree) (ns : CMNamespace)
    (kind : CapabilityKind) {rev : List MonikerSegment} {w : String}
    {origin : Moniker} {sp : String}
    (h : OfferChain t kind rev w origin sp) :
    walkOffers t ns kind rev w =
      Except.ok (CapabilitySource.component origin sp) := by
  induction h with
  | self revParent seg wanted pdecl o hres hoff hsrc hprog =>
    simp only [walkOffers, hres, hoff, hsrc, hprog]
    simp
  | realm revParent seg wanted pdecl o origin sp hres hoff hsrc hchain ih =>
    simp only [walkOffers, hres, hoff, hsrc]
    exact ih

/-- Association-list lookup commutes with erasing `uses`/`offers` from every
decl. -/
theorem find?_eraseRouting (l : List (Moniker × ComponentDecl)) (m : Moniker) :
    (l.map (fun p => (p.1, p.2.eraseRouting))).find?
        (fun p => decide (p.1 = m)) =
      (l.find? (fun p => decide (p.1 = m))).map
        (fun p => (p.1, p.2.eraseRouting)) := by
  induction l with
  | nil => rfl
  | cons p rest ih =>
    by_cases hp : p.1 = m
    · simp [List.find?, hp]
    · simp [List.find?, hp, ih]

/-- Resolution commutes with erasing `uses`/`offers` from every decl. -/
theorem resolve_eraseRouting (t : RealmTree) (m : Moniker) :
    t.eraseRouting.resolve m =
      (t.resolve m).map ComponentDecl.eraseRouting := by
  simp only [RealmTree.eraseRouting, RealmTree.resolve, find?_eraseRouting]
  cases t.realms.find? (fun p => decide (p.1 = m)) <;> rfl

/-- The expose-chase consults only `exposes` and the tree structure: erasing
every decl's `uses` and `offers` does not change its result. -/
theorem chaseExposes_eraseRouting (t : RealmTree) (kind : CapabilityKind) :
    ∀ (fuel : Nat) (m : Moniker) (w : String),
      chaseExposes t.eraseRouting kind fuel m w =
        chaseExposes t kind fuel m w := by
  intro fuel
  induction fuel with
  | zero => intro m w; rfl
  | succ fuel ih =>
    intro m w
    simp only [chaseExposes, resolve_eraseRouting]
    cases hres : t.resolve m with
    | none => rfl
    | some d =>
      have hexp : findExpose d.eraseRouting kind w = findExpose d kind w := rfl
      simp only [Option.map_some', hexp]
      cases hfe : findExpose d kind w with
      | none => rfl
      | some e =>
        cases hsrc : e.source with
        | Self_ => simp [hsrc]
        | Child n =>
            simpa [hsrc] using
              ih (m ++ [MonikerSegment.child n]) e.source_path

/-- The exposed-capability query consults only `exposes` and the tree
structure. -/
theorem routeExpose_eraseRouting (t : RealmTree) (m : Moniker)
    (kind : CapabilityKind) (tp : String) :
    routeExpose t.eraseRouting m kind tp = routeExpose t m kind tp := by
  have hlen : t.eraseRouting.realms.length = t.realms.length := by
    simp [RealmTree.eraseRouting]
  simp only [routeExpose, hlen, chaseExposes_eraseRouting]

/-! ## Claim theorems -/

/-- C1 (counterexample): it is not the case that routing fails with
`OfferFromNonExecutable` whenever the matched offer sits at a non-executable
parent regardless of the offer's source.  In the `use_kitchen_sink` tree,
realm `b` has no `program` and the offer it matches for
`(Service, /svc/foo_from_a)` targeting child `e` has source `Realm`, yet
`route(b/e, Service, /svc/hippo)` succeeds with provider `a` at `/svc/foo` —
exactly what the in-tree test asserts. -/
theorem C1_counterexample :
    (use_kitchen_sink_tree.resolve [MonikerSegment.child "b"]).map
        (fun d => d.program) = some false ∧
    (use_kitchen_sink_tree.resolve [MonikerSegment.child "b"]).bind
        (fun d => (findOffer d CapabilityKind.Service "/svc/foo_from_a"
          (MonikerSegment.child "e")).map (fun o => o.source)) =
      some OfferSource.Realm ∧
    route use_kitchen_sink_tree emptyNs
        [MonikerSegment.child "b", MonikerSegment.child "e"]
        CapabilityKind.Service "/svc/hippo" =
      Except.ok (CapabilitySource.component [] "/svc/foo") ∧
    (Except.ok (CapabilitySource.component [] "/svc/foo") :
        Except RoutingError CapabilitySource) ≠
      Except.error RoutingError.OfferFromNonExecutable :=
  ⟨rfl, rfl, rfl, by simp⟩

/-- C1 (amended): at any hop of the upward walk, once an offer of matching
kind and target path targeting the requesting child is found at the parent,
routing fails with `OfferFromNonExecutable` when the parent has no `program`
and the matched offer's source is `Self_`; `Realm`- and `Child`-sourced
offers are not subject to the executable check. -/
theorem C1_self_offer_from_non_executable (t : RealmTree) (ns : CMNamespace)
    (kind : CapabilityKind) (seg : MonikerSegment)
    (revParent : List MonikerSegment) (wanted : String)
    (pdecl : ComponentDecl) (o : OfferDecl)
    (hres : t.resolve revParent.reverse = some pdecl)
    (hoff : findOffer pdecl kind wanted seg = some o)
    (hsrc : o.source = OfferSource.Self_)
    (hprog : pdecl.program = false) :
    walkOffers t ns kind (seg :: revParent) wanted =
      Except.error RoutingError.OfferFromNonExecutable := by
  simp only [walkOffers, hres, hoff, hsrc, hprog]
  simp

/-- C1 (witness): in the `offer_from_non_executable` tree, the root has no
`program` and self-sources its offers; routing from `b` fails with
`OfferFromNonExecutable`. -/
theorem C1_witness :
    walkOffers offer_from_non_executable_tree emptyNs CapabilityKind.Directory
        [MonikerSegment.child "b"] "/data/hippo" =
      Except.error RoutingError.OfferFromNonExecutable :=
  C1_self_offer_from_non_executable offer_from_non_executable_tree emptyNs
    CapabilityKind.Directory (MonikerSegment.child "b") [] "/data/hippo"
    _ _ rfl rfl rfl rfl

/-- C2: a chain of realms each offering the capability with source `Self_`
at the (executable) originator or `Realm` pass-through at every hop below,
with matching kinds and paths down to the using leaf, routes successfully
and the provider is the originating realm opened at its declared source
path. -/
theorem C2_route_offer_chain (t : RealmTree) (ns : CMNamespace) (m : Moniker)
    (kind : CapabilityKind) (tp : String) (decl : ComponentDecl) (u : UseDecl)
    (origin : Moniker) (sp : String)
    (hres : t.resolve m = some decl)
    (huse : findUse decl kind tp = some u)
    (hamb : u.source_path ≠ ambientServicePath)
    (hchain : OfferChain t kind m.reverse u.source_path origin sp) :
    route t ns m kind tp =
      Except.ok (CapabilitySource.component origin sp) := by
  simp only [route, hres, huse, if_neg hamb]
  exact walkOffers_of_offerChain t ns kind hchain

/-- C2 (witness): in the `use_from_parent` tree, `a` offers directory
`/data/foo` as `/data/bar` to `b` and `b` uses `/data/bar` as `/data/hippo`;
`route(b, Directory, /data/hippo)` succeeds with provider `a` at
`/data/foo`. -/
theorem C2_witness :
    route use_from_parent_tree emptyNs [MonikerSegment.child "b"]
        CapabilityKind.Directory "/data/hippo" =
      Except.ok (CapabilitySource.component [] "/data/foo") :=
  C2_route_offer_chain use_from_parent_tree emptyNs [MonikerSegment.child "b"]
    CapabilityKind.Directory "/data/hippo" _ _ [] "/data/foo"
    rfl rfl (by decide)
    (@OfferChain.self use_from_parent_tree CapabilityKind.Directory []
      (MonikerSegment.child "b") "/data/bar" _ _ rfl rfl rfl rfl)

/-- C3: a capability that is only exposed and never offered cannot be
routed — when the requester's parent has no offer of the wanted kind and
path targeting the requester's segment, the route request fails with
`NotOffered`, no matter what any child or sibling exposes. -/
theorem C3_only_exposed_not_routed (t : RealmTree) (ns : CMNamespace)
    (m : Moniker) (kind : CapabilityKind) (tp : String)
    (decl : ComponentDecl) (u : UseDecl) (seg : MonikerSegment)
    (revParent : List MonikerSegment) (pdecl : ComponentDecl)
    (hres : t.resolve m = some decl)
    (huse : findUse decl kind tp = some u)
    (hamb : u.source_path ≠ ambientServicePath)
    (hrev : m.reverse = seg :: revParent)
    (hpres : t.resolve revParent.reverse = some pdecl)
    (hoff : findOffer pdecl kind u.source_path seg = none) :
    route t ns m kind tp = Except.error RoutingError.NotOffered := by
  simp only [route, hres, huse, if_neg hamb, hrev]
  simp only [walkOffers, hpres, hoff]

/-- C3 (witness): in the `use_from_expose` tree, `b` uses `/data/hippo` and
`/svc/hippo`, which its child `c` only exposes; routing fails with
`NotOffered` for both kinds. -/
theorem C3_witness :
    route use_from_expose_tree emptyNs [MonikerSegment.child "b"]
        CapabilityKind.Directory "/data/hippo" =
      Except.error RoutingError.NotOffered ∧
    route use_from_expose_tree emptyNs [MonikerSegment.child "b"]
        CapabilityKind.Service "/svc/hippo" =
      Except.error RoutingError.NotOffered :=
  ⟨C3_only_exposed_not_routed use_from_expose_tree emptyNs
      [MonikerSegment.child "b"] CapabilityKind.Directory "/data/hippo"
      _ _ (MonikerSegment.child "b") [] _ rfl rfl (by decide) rfl rfl rfl,
   C3_only_exposed_not_routed use_from_expose_tree emptyNs
      [MonikerSegment.child "b"] CapabilityKind.Service "/svc/hippo"
      _ _ (MonikerSegment.child "b") [] _ rfl rfl (by decide) rfl rfl rfl⟩

/-- C4: a route request succeeds with the ambient environment bound for
realm `r` exactly when the requester's matching `UseDecl` has the fixed
bootstrap service path as its `source_path` and `r` is the requester itself
— the only hard-coded bypass of the offer/expose chain, taken regardless of
any offers or exposes declared anywhere in the tree. -/
theorem C4_ambient_bypass_iff (t : RealmTree) (ns : CMNamespace) (m : Moniker)
    (kind : CapabilityKind) (tp : String) (r : Moniker) :
    route t ns m kind tp = Except.ok (CapabilitySource.ambient r) ↔
      r = m ∧ ∃ decl u, t.resolve m = some decl ∧
        findUse decl kind tp = some u ∧
        u.source_path = ambientServicePath := by
  constructor
  · intro h
    simp only [route] at h
    split at h
    · simp at h
    · rename_i decl hres
      split at h
      · simp at h
      · rename_i u huse
        split at h
        · rename_i hamb
          have hr : r = m := by simpa using h.symm
          exact ⟨hr, decl, u, hres, huse, hamb⟩
        · exact absurd h (walkOffers_ne_ambient t ns kind _ _ _)
  · rintro ⟨rfl, decl, u, hres, huse, hamb⟩
    simp only [route, hres, huse, if_pos hamb]

/-- C4 (witness): in the `use_ambient` tree, `b` uses
`/svc/fuchsia.sys2.Realm`; routing binds the ambient environment for `b`. -/
theorem C4_witness :
    route use_ambient_tree emptyNs [MonikerSegment.child "b"]
        CapabilityKind.Service "/svc/fuchsia.sys2.Realm" =
      Except.ok (CapabilitySource.ambient [MonikerSegment.child "b"]) :=
  (C4_ambient_bypass_iff use_ambient_tree emptyNs [MonikerSegment.child "b"]
      CapabilityKind.Service "/svc/fuchsia.sys2.Realm"
      [MonikerSegment.child "b"]).mpr
    ⟨rfl, _, _, rfl, rfl, rfl⟩

/-- C5: a dynamic child created in collection `coll` of `b` routes a
capability exactly when an ancestor offer chain delivers it through an offer
targeting the collection: in the `use_in_collection` tree, after creating
`coll:c` and `coll:d`, both route to the originator `a`; in the
`use_in_collection_not_offered` tree, where `b` declares `coll` but offers
nothing to it, routing fails with `NotOffered` for both kinds. -/
theorem C5_collection_routing :
    (createDynamicChild use_in_collection_base_tree [MonikerSegment.child "b"]
        "coll" "c" coll_c_decl).bind
      (fun t1 => createDynamicChild t1 [MonikerSegment.child "b"]
        "coll" "d" coll_d_decl) = Except.ok use_in_collection_full_tree ∧
    route use_in_collection_full_tree emptyNs
        [MonikerSegment.child "b", MonikerSegment.collectionChild "coll" "c"]
        CapabilityKind.Directory "/data/hippo" =
      Except.ok (CapabilitySource.component [] "/data/foo") ∧
    route use_in_collection_full_tree emptyNs
        [MonikerSegment.child "b", MonikerSegment.collectionChild "coll" "d"]
        CapabilityKind.Service "/svc/hippo" =
      Except.ok (CapabilitySource.component [] "/svc/foo") ∧
    createDynamicChild use_in_coll_not_offered_base_tree
        [MonikerSegment.child "b"] "coll" "c" coll_no_c_decl =
      Except.ok use_in_coll_not_offered_full_tree ∧
    route use_in_coll_not_offered_full_tree emptyNs
        [MonikerSegment.child "b", MonikerSegment.collectionChild "coll" "c"]
        CapabilityKind.Directory "/data/hippo" =
      Except.error RoutingError.NotOffered ∧
    route use_in_coll_not_offered_full_tree emptyNs
        [MonikerSegment.child "b", MonikerSegment.collectionChild "coll" "c"]
        CapabilityKind.Service "/svc/hippo" =
      Except.error RoutingError.NotOffered :=
  ⟨rfl, rfl, rfl, rfl, rfl, rfl⟩

/-- C6: when the upward walk reaches the root, the wanted path is resolved
against the component manager's fixed external namespace; concretely, with
root `a` offering `Realm`-sourced `/hippo/data/foo` as `/foo` to `b` and `b`
using `/foo` as `/data/hippo`, the route succeeds against the hosting
process's namespace, and likewise for the `Service` entry. -/
theorem C6_root_namespace_fallback :
    (∀ (t : RealmTree) (ns : CMNamespace) (kind : CapabilityKind)
        (w : String), (kind, w) ∈ ns →
        walkOffers t ns kind [] w =
          Except.ok (CapabilitySource.componentMgrNamespace w)) ∧
    route use_from_cm_namespace_tree hippo_namespace
        [MonikerSegment.child "b"] CapabilityKind.Directory "/data/hippo" =
      Except.ok (CapabilitySource.componentMgrNamespace "/hippo/data/foo") ∧
    route use_from_cm_namespace_tree hippo_namespace
        [MonikerSegment.child "b"] CapabilityKind.Service "/svc/hippo" =
      Except.ok
        (CapabilitySource.componentMgrNamespace
          "/svc/fidl.examples.echo.Echo") := by
  refine ⟨?_, rfl, rfl⟩
  intro t ns kind w hmem
  simp [walkOffers, hmem]

/-- C6 (witness): the namespace fallback at the root, applied to the
installed hippo directory entry. -/
theorem C6_witness :
    walkOffers use_from_cm_namespace_tree hippo_namespace
        CapabilityKind.Directory [] "/hippo/data/foo" =
      Except.ok (CapabilitySource.componentMgrNamespace "/hippo/data/foo") :=
  C6_root_namespace_fallback.1 use_from_cm_namespace_tree hippo_namespace
    CapabilityKind.Directory "/hippo/data/foo" (by decide)

/-- C7: when a matched offer has source `Realm` and the walk one level up
ends in `NotOffered` (the grandparent never itself offered the capability),
the whole route fails with `NotOffered`; concretely, in the
`use_offer_source_not_offered` tree (`b` offers `Realm`-sourced
`/data/hippo` and `/svc/hippo` to `c` but root `a` offers nothing), routing
from `c` fails with `NotOffered` for both kinds. -/
theorem C7_realm_offer_not_offered :
    (∀ (t : RealmTree) (ns : CMNamespace) (kind : CapabilityKind)
        (seg : MonikerSegment) (revParent : List MonikerSegment)
        (wanted : String) (pdecl : ComponentDecl) (o : OfferDecl),
        t.resolve revParent.reverse = some pdecl →
        findOffer pdecl kind wanted seg = some o →
        o.source = OfferSource.Realm →
        walkOffers t ns kind revParent o.source_path =
          Except.error RoutingError.NotOffered →
        walkOffers t ns kind (seg :: revParent) wanted =
          Except.error RoutingError.NotOffered) ∧
    route use_offer_source_not_offered_tree emptyNs
        [MonikerSegment.child "b", MonikerSegment.child "c"]
        CapabilityKind.Directory "/data/hippo" =
      Except.error RoutingError.NotOffered ∧
    route use_offer_source_not_offered_tree emptyNs
        [MonikerSegment.child "b", MonikerSegment.child "c"]
        CapabilityKind.Service "/svc/hippo" =
      Except.error RoutingError.NotOffered := by
  refine ⟨?_, rfl, rfl⟩
  intro t ns kind seg revParent wanted pdecl o hres hoff hsrc hup
  simp only [walkOffers, hres, hoff, hsrc]
  exact hup

/-- C7 (witness): the `Realm`-sourced hop at `b` propagates the
`NotOffered` failure of the hop above it. -/
theorem C7_witness :
    walkOffers use_offer_source_not_offered_tree emptyNs
        CapabilityKind.Directory
        [MonikerSegment.child "c", MonikerSegment.child "b"] "/data/hippo" =
      Except.error RoutingError.NotOffered :=
  C7_realm_offer_not_offered.1 use_offer_source_not_offered_tree emptyNs
    CapabilityKind.Directory (MonikerSegment.child "c")
    [MonikerSegment.child "b"] "/data/hippo" _ _ rfl rfl rfl rfl

/-- C8: when a matched offer has source `Child(n)` and child `n`'s decl
contains no expose of the matching kind at the wanted path, routing fails
with `ExposeSourceNotFound`; concretely, in the
`use_offer_source_not_exposed` tree (`a` offers `/data/hippo` and
`/svc/hippo` from child `b` to `c` but `b` exposes nothing), routing from
`c` fails with `ExposeSourceNotFound` for both kinds. -/
theorem C8_child_offer_not_exposed :
    (∀ (t : RealmTree) (ns : CMNamespace) (kind : CapabilityKind)
        (seg : MonikerSegment) (revParent : List MonikerSegment)
        (wanted : String) (pdecl : ComponentDecl) (o : OfferDecl)
        (n : String) (cdecl : ComponentDecl),
        t.resolve revParent.reverse = some pdecl →
        findOffer pdecl kind wanted seg = some o →
        o.source = OfferSource.Child n →
        t.resolve (revParent.reverse ++ [MonikerSegment.child n]) =
          some cdecl →
        findExpose cdecl kind o.source_path = none →
        walkOffers t ns kind (seg :: revParent) wanted =
          Except.error RoutingError.ExposeSourceNotFound) ∧
    route use_offer_source_not_exposed_tree emptyNs [MonikerSegment.child "c"]
        CapabilityKind.Directory "/data/hippo" =
      Except.error RoutingError.ExposeSourceNotFound ∧
    route use_offer_source_not_exposed_tree emptyNs [MonikerSegment.child "c"]
        CapabilityKind.Service "/svc/hippo" =
      Except.error RoutingError.ExposeSourceNotFound := by
  refine ⟨?_, rfl, rfl⟩
  intro t ns kind seg revParent wanted pdecl o n cdecl hres hoff hsrc
    hcres hexp
  simp only [walkOffers, hres, hoff, hsrc, chaseExposes, hcres, hexp]

/-- C8 (witness): the `Child(b)`-sourced hop at the root fails with
`ExposeSourceNotFound` because `b` exposes nothing. -/
theorem C8_witness :
    walkOffers use_offer_source_not_exposed_tree emptyNs
        CapabilityKind.Directory [MonikerSegment.child "c"] "/data/hippo" =
      Except.error RoutingError.ExposeSourceNotFound :=
  C8_child_offer_not_exposed.1 use_offer_source_not_exposed_tree emptyNs
    CapabilityKind.Directory (MonikerSegment.child "c") [] "/data/hippo"
    _ _ "b" _ rfl rfl rfl rfl rfl

/-- C9: the exposed-capability query runs only the expose-chase, with no
`UseDecl` or `OfferDecl` mediating — erasing every component's `uses` and
`offers` leaves its result unchanged — and on the
`expose_from_self_and_child` tree: querying `b` for `/data/bar/hippo` (and
`/svc/bar/hippo`) chases through `Child(c)` to provider `b/c` at
`/data/foo` (resp. `/svc/foo`), and querying `c` directly for `/data/hippo`
(resp. `/svc/hippo`) yields the same provider via its `Self_` expose. -/
theorem C9_expose_query :
    (∀ (t : RealmTree) (m : Moniker) (kind : CapabilityKind) (tp : String),
        routeExpose t.eraseRouting m kind tp = routeExpose t m kind tp) ∧
    routeExpose expose_from_self_and_child_tree [MonikerSegment.child "b"]
        CapabilityKind.Directory "/data/bar/hippo" =
      Except.ok (CapabilitySource.component
        [MonikerSegment.child "b", MonikerSegment.child "c"] "/data/foo") ∧
    routeExpose expose_from_self_and_child_tree [MonikerSegment.child "b"]
        CapabilityKind.Service "/svc/bar/hippo" =
      Except.ok (CapabilitySource.component
        [MonikerSegment.child "b", MonikerSegment.child "c"] "/svc/foo") ∧
    routeExpose expose_from_self_and_child_tree
        [MonikerSegment.child "b", MonikerSegment.child "c"]
        CapabilityKind.Directory "/data/hippo" =
      Except.ok (CapabilitySource.component
        [MonikerSegment.child "b", MonikerSegment.child "c"] "/data/foo") ∧
    routeExpose expose_from_self_and_child_tree
        [MonikerSegment.child "b", MonikerSegment.child "c"]
        CapabilityKind.Service "/svc/hippo" =
      Except.ok (CapabilitySource.component
        [MonikerSegment.child "b", MonikerSegment.child "c"] "/svc/foo") :=
  ⟨routeExpose_eraseRouting, rfl, rfl, rfl, rfl⟩

/-- C10: when the ambient special case fires, the ambient environment is
bound for the requesting realm itself — routing from realm `b` of the
`use_ambient` tree records the bind against `b`'s moniker, not against any
ancestor or the root. -/
theorem C10_ambient_bind_identity :
    route use_ambient_tree emptyNs [MonikerSegment.child "b"]
        CapabilityKind.Service "/svc/fuchsia.sys2.Realm" =
      Except.ok (CapabilitySource.ambient [MonikerSegment.child "b"]) ∧
    ([MonikerSegment.child "b"] : Moniker) ≠ [] :=
  ⟨rfl, by simp⟩

end ComponentManager
